import Mathlib

/-!
Verification of `aries_cloudagent/vc/ld_proofs/document_loader.py`
(the JSON-LD `DocumentLoader` adapter).

The adapter's asynchronous pipeline `_load_async` is embedded as a pure
Lean function that, besides its result, records the trace of collaborator
invocations (cache get/set, identifier resolver, network fetcher).
External collaborators (the DID resolver, the pyld requests loader, the
cache store, and pydid's `DIDUrl` parsing) are parameters of the
embedding, mirroring their contracts.
-/

/-- Minimal model of the Python values flowing through the loader
(documents, option mappings, cached values).  Enough structure is kept to
express Python truthiness, which the source tests with `if document:`. -/
inductive Val : Type
  | vnone : Val
  | vbool : Bool → Val
  | vint : Int → Val
  | vstr : String → Val
  | vlist : List Val → Val
  | vdict : List (String × Val) → Val
  deriving Repr

/-- Python truthiness of a modelled value: `None`, `False`, `0`, the
empty string, the empty list and the empty dict are falsy; everything
else is truthy. -/
def truthy : Val → Bool
  | Val.vnone => false
  | Val.vbool b => b
  | Val.vint i => i != 0
  | Val.vstr s => s != ("")
  | Val.vlist l => !l.isEmpty
  | Val.vdict l => !l.isEmpty

/-- Exceptions that can surface from the pipeline.  A
`linkedDataProofException` carries the message it was constructed with
(line 76-79 of the source); the other constructors model failures of the
external collaborators, which the pipeline propagates unchanged. -/
inductive PyErr : Type
  | linkedDataProofException : String → PyErr
  | resolverErr : String → PyErr
  | fetchErr : String → PyErr
  | cacheErr : String → PyErr
  deriving Repr, DecidableEq

/-- Collaborator invocations recorded by the embedding, in program
order: a cache lookup, a cache store, a call to the DID resolver
(`self.resolver.resolve`), or a call to the network fetcher
(`self.requests_loader`).  Each event carries the exact arguments. -/
inductive Event : Type
  | cacheGet : String → Event
  | cacheSet : String → Val → Nat → Event
  | resolveDid : String → Event
  | fetchHttp : String → Val → Event
  deriving Repr

/-- External collaborators of the loader, as opaque parameters.
`didUrlIsValid` and `didUrlDid` model pydid: `DIDUrl.is_valid(s)` and
`DIDUrl.parse(s).did`.  Per the source comment (lines 37-39), pydid's
`DIDUrl` rejects a plain DID without path/query/fragment, so
`didUrlIsValid` is `false` on a bare DID and `true` exactly on
well-formed DID URLs carrying a path, query or fragment, where
`didUrlDid` strips those down to the bare DID.  `resolver` models
`DIDResolver.resolve` (async, fallible); `requestsLoader` models the
synchronous pyld requests document loader. -/
structure Collaborators : Type where
  didUrlIsValid : String → Bool
  didUrlDid : String → String
  resolver : String → Except PyErr Val
  requestsLoader : String → Val → Except PyErr Val

/-- Behaviour of a configured cache store (`BaseCache`): `get` returns
the stored value or a falsy absence marker, `setRes` is the outcome of
`set` (which can also fail).  Both are async in the source; the
embedding sequences them explicitly. -/
structure CacheBehavior : Type where
  get : String → Except PyErr Val
  setRes : String → Val → Nat → Except PyErr Unit

/-- Model of Python's `str.startswith`, used by `_load_async` for scheme
dispatch. -/
def pyStartsWith (s p : String) : Bool :=
  List.isPrefixOf p.data s.data

/-- Cache key computed at line 62 of the source:
`f"json_ld_document_resolver::{url}"`. -/
def cacheKey (url : String) : String :=
  ("json_ld_document_resolver::") ++ url

/-- Message of the exception raised for an unrecognized url (lines
76-79 of the source; two adjacent string literals concatenated). -/
def unrecognizedMsg : String :=
  ("Unrecognized url format. Must start with \x27did:\x27, \x27http://\x27 or \x27https://\x27")

/-- Embedding of `DocumentLoader._load_did_document` (lines 36-51).
Normalizes the reference through pydid when it is a valid DID URL,
invokes the DID resolver on the (possibly stripped) DID, and wraps the
resolved document in the fixed four-field record.  The `options`
argument is accepted but unused, as in the source. -/
def loadDidDocument (c : Collaborators) (did0 : String) (options : Val) :
    List Event × Except PyErr Val :=
  let _ := options
  let did := if c.didUrlIsValid did0 then c.didUrlDid did0 else did0
  match c.resolver did with
  | Except.error e => ([Event.resolveDid did], Except.error e)
  | Except.ok didDocument =>
      ([Event.resolveDid did],
       Except.ok (Val.vdict
         [(("contentType"), Val.vstr ("application/ld+json")),
          (("contextUrl"), Val.vnone),
          (("documentUrl"), Val.vstr did),
          (("document"), didDocument)]))

/-- Embedding of `DocumentLoader._load_http_document` (lines 53-56):
the network fetcher is called with the url and options unchanged and
its result is returned as-is. -/
def loadHttpDocument (c : Collaborators) (url : String) (options : Val) :
    List Event × Except PyErr Val :=
  match c.requestsLoader url options with
  | Except.error e => ([Event.fetchHttp url options], Except.error e)
  | Except.ok document => ([Event.fetchHttp url options], Except.ok document)

/-- Scheme dispatch of `_load_async` (lines 70-79): DID references go to
the DID path, HTTP(S) references to the fetcher, anything else raises
`LinkedDataProofException` with the fixed message. -/
def resolveDispatch (c : Collaborators) (url : String) (options : Val) :
    List Event × Except PyErr Val :=
  if pyStartsWith url ("did:") then
    loadDidDocument c url options
  else if pyStartsWith url ("http://") || pyStartsWith url ("https://") then
    loadHttpDocument c url options
  else
    ([], Except.error (PyErr.linkedDataProofException unrecognizedMsg))

/-- Cache-fill step of `_load_async` (lines 81-85): when a cache is
configured and resolution succeeded, store the document under the key
with the configured TTL, then return the document.  Failures of the
dispatch (or of `set`) propagate. -/
def cacheFill (cacheOpt : Option CacheBehavior) (ttl : Nat) (key : String)
    (r : List Event × Except PyErr Val) : List Event × Except PyErr Val :=
  match r with
  | (ev, Except.error e) => (ev, Except.error e)
  | (ev, Except.ok document) =>
      match cacheOpt with
      | none => (ev, Except.ok document)
      | some cb =>
          match cb.setRes key document ttl with
          | Except.error e =>
              (ev ++ [Event.cacheSet key document ttl], Except.error e)
          | Except.ok _ =>
              (ev ++ [Event.cacheSet key document ttl], Except.ok document)

/-- Embedding of `DocumentLoader._load_async` (lines 59-85).  Computes
the cache key, consults the cache when one is configured (a truthy
cached value is returned verbatim), otherwise dispatches on the scheme
and fills the cache on success.  The first component is the trace of
collaborator invocations in program order. -/
def loadAsync (c : Collaborators) (cacheOpt : Option CacheBehavior) (ttl : Nat)
    (url : String) (options : Val) : List Event × Except PyErr Val :=
  let key := cacheKey url
  match cacheOpt with
  | some cb =>
      match cb.get key with
      | Except.error e => ([Event.cacheGet key], Except.error e)
      | Except.ok document =>
          if truthy document then
            ([Event.cacheGet key], Except.ok document)
          else
            let r := cacheFill (some cb) ttl key (resolveDispatch c url options)
            (Event.cacheGet key :: r.1, r.2)
  | none => cacheFill none ttl key (resolveDispatch c url options)

/-- Substring test on the underlying character lists, used to state
whether an error message mentions the offending reference. -/
def containsSubAux (needle : List Char) : List Char → Bool
  | [] => needle.isEmpty
  | h :: t => List.isPrefixOf needle (h :: t) || containsSubAux needle t

/-- Whether `needle` occurs as a contiguous substring of `hay`. -/
def strContainsSub (hay needle : String) : Bool :=
  containsSubAux needle.data hay.data

/-- Concrete TTL-respecting cache store, used to instantiate the
abstract `CacheBehavior` for the cache-idempotence claim: a list of
entries `(key, value, expiry time)`. -/
abbrev Store : Type := List (String × Val × Nat)

/-- Lookup in the concrete store at time `now`: the most recent entry
for the key, if unexpired, else the absence marker `None`. -/
def storeGet (now : Nat) (k : String) : Store → Val
  | [] => Val.vnone
  | (k2, v, expiry) :: rest =>
      if k2 == k then (if now ≤ expiry then v else Val.vnone)
      else storeGet now k rest

/-- Store `v` under `k` at time `now` with time-to-live `ttl`. -/
def storeSet (now : Nat) (k : String) (v : Val) (ttl : Nat) (s : Store) : Store :=
  (k, v, now + ttl) :: s

/-- The `CacheBehavior` presented by the concrete store at time `now`:
`get` always succeeds (returning `None` on absence or expiry) and `set`
always succeeds. -/
def storeCB (s : Store) (now : Nat) : CacheBehavior :=
  { get := fun k => Except.ok (storeGet now k s),
    setRes := fun _ _ _ => Except.ok () }

/-- Replay the cache mutations of a trace against the concrete store:
`cacheSet` events update the store, everything else is read-only. -/
def applyEvents (now : Nat) : Store → List Event → Store
  | s, [] => s
  | s, Event.cacheSet k v ttl :: rest => applyEvents now (storeSet now k v ttl s) rest
  | s, Event.cacheGet _ :: rest => applyEvents now s rest
  | s, Event.resolveDid _ :: rest => applyEvents now s rest
  | s, Event.fetchHttp _ _ :: rest => applyEvents now s rest

/-- Two successive `load` calls through the same concrete cache store:
the first at time `t1` against store `s0`, the second at time `t2`
against the store left behind by the first call.  Returns both results
(trace and outcome). -/
def twoCalls (c : Collaborators) (ttl : Nat) (s0 : Store) (t1 t2 : Nat)
    (url : String) (options : Val) :
    (List Event × Except PyErr Val) × (List Event × Except PyErr Val) :=
  let r1 := loadAsync c (some (storeCB s0 t1)) ttl url options
  let s1 := applyEvents t1 s0 r1.1
  let r2 := loadAsync c (some (storeCB s1 t2)) ttl url options
  (r1, r2)

/-- Whether an event is an invocation of an underlying resolver
collaborator (the DID resolver or the network fetcher). -/
def isResolverCall : Event → Bool
  | Event.resolveDid _ => true
  | Event.fetchHttp _ _ => true
  | Event.cacheGet _ => false
  | Event.cacheSet _ _ _ => false

/-- Number of invocations of the underlying resolver collaborators (DID
resolver or network fetcher) recorded in a trace. -/
def countResolverCalls (evs : List Event) : Nat :=
  List.countP isResolverCall evs

/-- Concrete collaborators used by the witnesses: pydid accepts exactly
the DID URL `did:example:123/path?query` (stripping it to
`did:example:123`), the DID resolver echoes the DID inside a one-entry
dict, and the network fetcher returns a dict recording its arguments. -/
def exC : Collaborators :=
  { didUrlIsValid := fun s => s == ("did:example:123/path?query"),
    didUrlDid := fun _ => ("did:example:123"),
    resolver := fun d => Except.ok (Val.vdict [(("id"), Val.vstr d)]),
    requestsLoader := fun u o =>
      Except.ok (Val.vdict [(("documentUrl"), Val.vstr u), (("options"), o)]) }

/-- Concrete cache behaviour that always misses (returns `None`) and
accepts every store. -/
def exCacheMiss : CacheBehavior :=
  { get := fun _ => Except.ok Val.vnone,
    setRes := fun _ _ _ => Except.ok () }

/-- Concrete cache behaviour that returns a fixed truthy document for
every key. -/
def exCacheHit : CacheBehavior :=
  { get := fun _ => Except.ok (Val.vstr ("cached")),
    setRes := fun _ _ _ => Except.ok () }

/-- Concrete cache behaviour that returns a falsy (but present) value:
the empty dict. -/
def exCacheFalsy : CacheBehavior :=
  { get := fun _ => Except.ok (Val.vdict []),
    setRes := fun _ _ _ => Except.ok () }

/-- Helper: a reference starting with the HTTP scheme marker cannot also
start with the DID scheme marker (first characters differ). -/
theorem pyStartsWith_http_not_did (s : String)
    (h : pyStartsWith s ("http://") = true) :
    pyStartsWith s ("did:") = false := by
  unfold pyStartsWith at h ⊢
  cases s with
  | mk data =>
    cases data with
    | nil => simp [List.isPrefixOf] at h
    | cons a rest =>
      simp only [List.isPrefixOf, Bool.and_eq_true, beq_iff_eq] at h ⊢
      obtain ⟨h1, _⟩ := h
      subst h1
      simp

/-- Helper: a reference starting with the HTTPS scheme marker cannot
also start with the DID scheme marker. -/
theorem pyStartsWith_https_not_did (s : String)
    (h : pyStartsWith s ("https://") = true) :
    pyStartsWith s ("did:") = false := by
  unfold pyStartsWith at h ⊢
  cases s with
  | mk data =>
    cases data with
    | nil => simp [List.isPrefixOf] at h
    | cons a rest =>
      simp only [List.isPrefixOf, Bool.and_eq_true, beq_iff_eq] at h ⊢
      obtain ⟨h1, _⟩ := h
      subst h1
      simp

/-- Helper: with a cache configured, the trace of `_load_async` always
begins with the cache lookup on the namespaced key, whatever the cache
returns and whatever the options are. -/
theorem loadAsync_cache_trace_head (c : Collaborators) (cb : CacheBehavior)
    (ttl : Nat) (url : String) (options : Val) :
    (loadAsync c (some cb) ttl url options).1.head?
      = some (Event.cacheGet (cacheKey url)) := by
  unfold loadAsync
  cases hg : cb.get (cacheKey url) with
  | error e => simp [hg]
  | ok document =>
      cases htv : truthy document <;> simp [hg, htv]

/-- C1 (amended): for an unrecognized reference the pipeline fails with
the `LinkedDataProofException` and never invokes the DID resolver, the
network fetcher, or cache `set`; however, when a cache is configured its
`get` IS invoked first (here: a miss), contrary to the original claim. -/
theorem unrecognized_load_fails_resolvers_untouched
    (c : Collaborators) (cb : CacheBehavior) (ttl : Nat) (url : String)
    (options v : Val)
    (h1 : pyStartsWith url ("did:") = false)
    (h2 : pyStartsWith url ("http://") = false)
    (h3 : pyStartsWith url ("https://") = false)
    (hget : cb.get (cacheKey url) = Except.ok v)
    (hfalsy : truthy v = false) :
    loadAsync c none ttl url options
      = ([], Except.error (PyErr.linkedDataProofException unrecognizedMsg))
    ∧ loadAsync c (some cb) ttl url options
      = ([Event.cacheGet (cacheKey url)],
         Except.error (PyErr.linkedDataProofException unrecognizedMsg)) := by
  constructor
  · simp [loadAsync, cacheFill, resolveDispatch, h1, h2, h3]
  · simp [loadAsync, cacheFill, resolveDispatch, h1, h2, h3, hget, hfalsy]

/-- C1 witness: the amended statement instantiated at
`ftp://example.com/x` with a missing cache entry. -/
theorem unrecognized_load_fails_resolvers_untouched_witness :
    loadAsync exC none 300 ("ftp://example.com/x") (Val.vdict [])
      = ([], Except.error (PyErr.linkedDataProofException unrecognizedMsg))
    ∧ loadAsync exC (some exCacheMiss) 300 ("ftp://example.com/x") (Val.vdict [])
      = ([Event.cacheGet (cacheKey ("ftp://example.com/x"))],
         Except.error (PyErr.linkedDataProofException unrecognizedMsg)) :=
  unrecognized_load_fails_resolvers_untouched exC exCacheMiss 300
    ("ftp://example.com/x") (Val.vdict []) Val.vnone rfl rfl rfl rfl rfl

/-- C1 counterexample: with a cache configured, loading the unrecognized
reference `ftp://example.com/x` DOES invoke the cache (its `get`), so
the cache is not left untouched as the original claim states. -/
theorem unrecognized_invokes_cache_get_counterexample :
    (loadAsync exC (some exCacheMiss) 300 ("ftp://example.com/x") (Val.vdict [])).1
      = [Event.cacheGet ("json_ld_document_resolver::ftp://example.com/x")]
    ∧ Event.cacheGet ("json_ld_document_resolver::ftp://example.com/x")
        ∈ (loadAsync exC (some exCacheMiss) 300 ("ftp://example.com/x") (Val.vdict [])).1 := by
  refine ⟨rfl, ?_⟩
  rw [show (loadAsync exC (some exCacheMiss) 300 ("ftp://example.com/x") (Val.vdict [])).1
      = [Event.cacheGet ("json_ld_document_resolver::ftp://example.com/x")] from rfl]
  exact List.mem_singleton.mpr rfl

/-- C5: the cache key is the namespaced string
`json_ld_document_resolver::` followed by the original reference, and it
is a function of the reference alone: for any two options values the
trace begins with the same cache lookup on that key. -/
theorem cache_key_ignores_options
    (c : Collaborators) (cb : CacheBehavior) (ttl : Nat) (url : String)
    (o1 o2 : Val) :
    cacheKey url = ("json_ld_document_resolver::") ++ url
    ∧ (loadAsync c (some cb) ttl url o1).1.head?
        = some (Event.cacheGet (("json_ld_document_resolver::") ++ url))
    ∧ (loadAsync c (some cb) ttl url o1).1.head?
        = (loadAsync c (some cb) ttl url o2).1.head? := by
  refine ⟨rfl, loadAsync_cache_trace_head c cb ttl url o1, ?_⟩
  rw [loadAsync_cache_trace_head c cb ttl url o1,
      loadAsync_cache_trace_head c cb ttl url o2]

/-- C6 (amended): for any unrecognized reference the pipeline fails with
`LinkedDataProofException` carrying one fixed message, independent of the
reference; in particular the message does not mention
`ftp://example.com/x`. -/
theorem unrecognized_error_message_fixed
    (c : Collaborators) (ttl : Nat) (url : String) (options : Val)
    (h1 : pyStartsWith url ("did:") = false)
    (h2 : pyStartsWith url ("http://") = false)
    (h3 : pyStartsWith url ("https://") = false) :
    loadAsync c none ttl url options
      = ([], Except.error (PyErr.linkedDataProofException unrecognizedMsg))
    ∧ strContainsSub unrecognizedMsg ("ftp://example.com/x") = false := by
  constructor
  · simp [loadAsync, cacheFill, resolveDispatch, h1, h2, h3]
  · rfl

/-- C6 witness: the amended statement instantiated at
`ftp://example.com/x`. -/
theorem unrecognized_error_message_fixed_witness :
    loadAsync exC none 300 ("ftp://example.com/x") (Val.vdict [])
      = ([], Except.error (PyErr.linkedDataProofException unrecognizedMsg))
    ∧ strContainsSub unrecognizedMsg ("ftp://example.com/x") = false :=
  unrecognized_error_message_fixed exC 300 ("ftp://example.com/x")
    (Val.vdict []) rfl rfl rfl

/-- C6 counterexample: `load("ftp://example.com/x", ...)` fails with the
fixed-message exception and that message does NOT contain the offending
reference, so the error does not carry the reference as claimed. -/
theorem error_lacks_reference_counterexample :
    loadAsync exC none 300 ("ftp://example.com/x") (Val.vdict [])
      = ([], Except.error (PyErr.linkedDataProofException unrecognizedMsg))
    ∧ strContainsSub unrecognizedMsg ("ftp://example.com/x") = false
    ∧ strContainsSub unrecognizedMsg ("ftp") = false :=
  ⟨rfl, rfl, rfl⟩

/-- C7: for a reference that pydid does not accept as a DID URL (in
particular any valid bare DID, which pydid rejects for lack of
path/query/fragment), normalization is the identity and the DID resolver
is invoked with the reference unchanged. -/
theorem bare_did_passes_unchanged
    (c : Collaborators) (url : String) (options : Val)
    (hv : c.didUrlIsValid url = false) :
    (loadDidDocument c url options).1 = [Event.resolveDid url] := by
  unfold loadDidDocument
  rw [hv]
  simp only [Bool.false_eq_true, if_false]
  cases hr : c.resolver url <;> simp [hr]

/-- C7 witness: the bare DID `did:example:456` reaches the resolver
unchanged. -/
theorem bare_did_passes_unchanged_witness :
    (loadDidDocument exC ("did:example:456") (Val.vdict [])).1
      = [Event.resolveDid ("did:example:456")] :=
  bare_did_passes_unchanged exC ("did:example:456") (Val.vdict []) rfl

/-- C3: for a reference that pydid accepts as a DID URL (a well-formed
DID reference carrying a path, query or fragment), the DID resolver is
invoked with exactly the stripped bare DID, and the result is the fixed
four-field record with content type `application/ld+json`, absent
context URL, document URL equal to the bare DID, and the resolver's
output as body; the same record is returned by the full pipeline with no
cache configured. -/
theorem did_url_normalized_and_wrapped
    (c : Collaborators) (ttl : Nat) (url : String) (options body : Val)
    (hd : pyStartsWith url ("did:") = true)
    (hv : c.didUrlIsValid url = true)
    (hr : c.resolver (c.didUrlDid url) = Except.ok body) :
    loadDidDocument c url options
      = ([Event.resolveDid (c.didUrlDid url)],
         Except.ok (Val.vdict
           [(("contentType"), Val.vstr ("application/ld+json")),
            (("contextUrl"), Val.vnone),
            (("documentUrl"), Val.vstr (c.didUrlDid url)),
            (("document"), body)]))
    ∧ loadAsync c none ttl url options
      = ([Event.resolveDid (c.didUrlDid url)],
         Except.ok (Val.vdict
           [(("contentType"), Val.vstr ("application/ld+json")),
            (("contextUrl"), Val.vnone),
            (("documentUrl"), Val.vstr (c.didUrlDid url)),
            (("document"), body)])) := by
  have hmain : loadDidDocument c url options
      = ([Event.resolveDid (c.didUrlDid url)],
         Except.ok (Val.vdict
           [(("contentType"), Val.vstr ("application/ld+json")),
            (("contextUrl"), Val.vnone),
            (("documentUrl"), Val.vstr (c.didUrlDid url)),
            (("document"), body)])) := by
    simp [loadDidDocument, hv, hr]
  refine ⟨hmain, ?_⟩
  simp [loadAsync, cacheFill, resolveDispatch, hd, hmain]

/-- C3 witness: `did:example:123/path?query` is stripped to
`did:example:123` before resolution and wrapped in the four-field
record. -/
theorem did_url_normalized_and_wrapped_witness :
    loadDidDocument exC ("did:example:123/path?query") (Val.vdict [])
      = ([Event.resolveDid ("did:example:123")],
         Except.ok (Val.vdict
           [(("contentType"), Val.vstr ("application/ld+json")),
            (("contextUrl"), Val.vnone),
            (("documentUrl"), Val.vstr ("did:example:123")),
            (("document"), Val.vdict [(("id"), Val.vstr ("did:example:123"))])]))
    ∧ loadAsync exC none 300 ("did:example:123/path?query") (Val.vdict [])
      = ([Event.resolveDid ("did:example:123")],
         Except.ok (Val.vdict
           [(("contentType"), Val.vstr ("application/ld+json")),
            (("contextUrl"), Val.vnone),
            (("documentUrl"), Val.vstr ("did:example:123")),
            (("document"), Val.vdict [(("id"), Val.vstr ("did:example:123"))])])) :=
  did_url_normalized_and_wrapped exC 300 ("did:example:123/path?query")
    (Val.vdict []) (Val.vdict [(("id"), Val.vstr ("did:example:123"))])
    rfl rfl rfl

/-- C2: with a cache configured, the pipeline first looks up the cache
key; a truthy hit short-circuits and returns the cached value verbatim
with no further collaborator invocation; on a miss, a successful
resolution is stored under the key with the configured TTL before being
returned, and a failed resolution stores nothing. -/
theorem cache_hit_short_circuits_and_fill
    (c : Collaborators) (cb : CacheBehavior) (ttl : Nat) (url : String)
    (options v : Val)
    (hget : cb.get (cacheKey url) = Except.ok v) :
    (truthy v = true →
        loadAsync c (some cb) ttl url options
          = ([Event.cacheGet (cacheKey url)], Except.ok v))
    ∧ (truthy v = false →
        ∀ d : Val, (resolveDispatch c url options).2 = Except.ok d →
          cb.setRes (cacheKey url) d ttl = Except.ok () →
          loadAsync c (some cb) ttl url options
            = (Event.cacheGet (cacheKey url)
                 :: (resolveDispatch c url options).1
                 ++ [Event.cacheSet (cacheKey url) d ttl],
               Except.ok d))
    ∧ (truthy v = false →
        ∀ e : PyErr, (resolveDispatch c url options).2 = Except.error e →
          loadAsync c (some cb) ttl url options
            = (Event.cacheGet (cacheKey url) :: (resolveDispatch c url options).1,
               Except.error e)) := by
  refine ⟨?_, ?_, ?_⟩
  · intro hv
    simp [loadAsync, hget, hv]
  · intro hv d hd hset
    rcases hr : resolveDispatch c url options with ⟨ev, res⟩
    rw [hr] at hd
    simp at hd
    subst hd
    simp [loadAsync, hget, hv, cacheFill, hr, hset]
  · intro hv e he
    rcases hr : resolveDispatch c url options with ⟨ev, res⟩
    rw [hr] at he
    simp at he
    subst he
    simp [loadAsync, hget, hv, cacheFill, hr]

/-- C2 witness: a cache miss on an HTTPS reference resolves through the
fetcher and is stored under the key with TTL 300 before being
returned. -/
theorem cache_hit_short_circuits_and_fill_witness :
    loadAsync exC (some exCacheMiss) 300 ("https://example.com/ctx.jsonld")
        (Val.vdict [])
      = (Event.cacheGet (cacheKey ("https://example.com/ctx.jsonld"))
           :: (resolveDispatch exC ("https://example.com/ctx.jsonld") (Val.vdict [])).1
           ++ [Event.cacheSet (cacheKey ("https://example.com/ctx.jsonld"))
                 (Val.vdict
                   [(("documentUrl"), Val.vstr ("https://example.com/ctx.jsonld")),
                    (("options"), Val.vdict [])]) 300],
         Except.ok (Val.vdict
           [(("documentUrl"), Val.vstr ("https://example.com/ctx.jsonld")),
            (("options"), Val.vdict [])])) :=
  (cache_hit_short_circuits_and_fill exC exCacheMiss 300
      ("https://example.com/ctx.jsonld") (Val.vdict []) Val.vnone rfl).2.1 rfl
    (Val.vdict
      [(("documentUrl"), Val.vstr ("https://example.com/ctx.jsonld")),
       (("options"), Val.vdict [])])
    rfl rfl

/-- C4: for an HTTP(S) reference (no cache, or cache miss) the network
fetcher is invoked with exactly the original reference and options, and
the pipeline's result is the fetcher's record unchanged. -/
theorem http_fetcher_passthrough
    (c : Collaborators) (cb : CacheBehavior) (ttl : Nat) (url : String)
    (options v d : Val)
    (hp : pyStartsWith url ("http://") = true ∨ pyStartsWith url ("https://") = true)
    (hf : c.requestsLoader url options = Except.ok d)
    (hget : cb.get (cacheKey url) = Except.ok v)
    (hfalsy : truthy v = false)
    (hset : cb.setRes (cacheKey url) d ttl = Except.ok ()) :
    loadAsync c none ttl url options = ([Event.fetchHttp url options], Except.ok d)
    ∧ loadAsync c (some cb) ttl url options
      = ([Event.cacheGet (cacheKey url), Event.fetchHttp url options,
          Event.cacheSet (cacheKey url) d ttl], Except.ok d) := by
  have hnd : pyStartsWith url ("did:") = false := by
    rcases hp with h | h
    · exact pyStartsWith_http_not_did url h
    · exact pyStartsWith_https_not_did url h
  have hdisp : resolveDispatch c url options
      = ([Event.fetchHttp url options], Except.ok d) := by
    rcases hp with h | h <;> simp [resolveDispatch, hnd, h, loadHttpDocument, hf]
  constructor
  · simp [loadAsync, cacheFill, hdisp]
  · simp [loadAsync, hget, hfalsy, cacheFill, hdisp, hset]

/-- C4 witness: an HTTPS reference goes to the fetcher with its original
arguments, both without a cache and on a cache miss. -/
theorem http_fetcher_passthrough_witness :
    loadAsync exC none 300 ("https://example.com/ctx.jsonld") (Val.vdict [])
      = ([Event.fetchHttp ("https://example.com/ctx.jsonld") (Val.vdict [])],
         Except.ok (Val.vdict
           [(("documentUrl"), Val.vstr ("https://example.com/ctx.jsonld")),
            (("options"), Val.vdict [])]))
    ∧ loadAsync exC (some exCacheMiss) 300 ("https://example.com/ctx.jsonld")
        (Val.vdict [])
      = ([Event.cacheGet (cacheKey ("https://example.com/ctx.jsonld")),
          Event.fetchHttp ("https://example.com/ctx.jsonld") (Val.vdict []),
          Event.cacheSet (cacheKey ("https://example.com/ctx.jsonld"))
            (Val.vdict
              [(("documentUrl"), Val.vstr ("https://example.com/ctx.jsonld")),
               (("options"), Val.vdict [])]) 300],
         Except.ok (Val.vdict
           [(("documentUrl"), Val.vstr ("https://example.com/ctx.jsonld")),
            (("options"), Val.vdict [])])) :=
  http_fetcher_passthrough exC exCacheMiss 300 ("https://example.com/ctx.jsonld")
    (Val.vdict []) Val.vnone
    (Val.vdict
      [(("documentUrl"), Val.vstr ("https://example.com/ctx.jsonld")),
       (("options"), Val.vdict [])])
    (Or.inr rfl) rfl rfl rfl rfl

/-- Helper: `cacheFill` depends on the cache behaviour only through its
`set` outcome. -/
theorem cacheFill_congr (cb cb2 : CacheBehavior) (ttl : Nat) (key : String)
    (r : List Event × Except PyErr Val) (hsame : cb2.setRes = cb.setRes) :
    cacheFill (some cb2) ttl key r = cacheFill (some cb) ttl key r := by
  rcases r with ⟨ev, res⟩
  cases res <;> simp [cacheFill, hsame]

/-- C10: a falsy value returned by the cache's `get` (such as `None`,
the empty dict or the empty string) is treated as a miss, so full
resolution (dispatch plus cache fill) proceeds, and a cache returning a
falsy present value is indistinguishable from one returning the absence
marker `None`. -/
theorem falsy_cache_value_is_miss
    (c : Collaborators) (cb cb2 : CacheBehavior) (ttl : Nat) (url : String)
    (options v : Val)
    (hget : cb.get (cacheKey url) = Except.ok v)
    (hfalsy : truthy v = false)
    (hget2 : cb2.get (cacheKey url) = Except.ok Val.vnone)
    (hsame : cb2.setRes = cb.setRes) :
    loadAsync c (some cb) ttl url options
      = (Event.cacheGet (cacheKey url)
           :: (cacheFill (some cb) ttl (cacheKey url) (resolveDispatch c url options)).1,
         (cacheFill (some cb) ttl (cacheKey url) (resolveDispatch c url options)).2)
    ∧ loadAsync c (some cb2) ttl url options = loadAsync c (some cb) ttl url options := by
  have h1 : loadAsync c (some cb) ttl url options
      = (Event.cacheGet (cacheKey url)
           :: (cacheFill (some cb) ttl (cacheKey url) (resolveDispatch c url options)).1,
         (cacheFill (some cb) ttl (cacheKey url) (resolveDispatch c url options)).2) := by
    simp [loadAsync, hget, hfalsy]
  have h2 : loadAsync c (some cb2) ttl url options
      = (Event.cacheGet (cacheKey url)
           :: (cacheFill (some cb2) ttl (cacheKey url) (resolveDispatch c url options)).1,
         (cacheFill (some cb2) ttl (cacheKey url) (resolveDispatch c url options)).2) := by
    simp [loadAsync, hget2, truthy]
  refine ⟨h1, ?_⟩
  rw [h1, h2,
    cacheFill_congr cb cb2 ttl (cacheKey url) (resolveDispatch c url options) hsame]

/-- C10 witness: an empty dict returned by the cache behaves exactly
like an absent entry for an HTTPS reference. -/
theorem falsy_cache_value_is_miss_witness :
    loadAsync exC (some exCacheFalsy) 300 ("https://example.com/ctx.jsonld")
        (Val.vdict [])
      = (Event.cacheGet (cacheKey ("https://example.com/ctx.jsonld"))
           :: (cacheFill (some exCacheFalsy) 300 (cacheKey ("https://example.com/ctx.jsonld"))
                 (resolveDispatch exC ("https://example.com/ctx.jsonld") (Val.vdict []))).1,
         (cacheFill (some exCacheFalsy) 300 (cacheKey ("https://example.com/ctx.jsonld"))
             (resolveDispatch exC ("https://example.com/ctx.jsonld") (Val.vdict []))).2)
    ∧ loadAsync exC (some exCacheMiss) 300 ("https://example.com/ctx.jsonld")
        (Val.vdict [])
      = loadAsync exC (some exCacheFalsy) 300 ("https://example.com/ctx.jsonld")
          (Val.vdict []) :=
  falsy_cache_value_is_miss exC exCacheFalsy exCacheMiss 300
    ("https://example.com/ctx.jsonld") (Val.vdict []) (Val.vdict [])
    rfl rfl rfl rfl

/-- Helper: the DID path always performs exactly one resolver call, on
the pydid-normalized identifier, whatever the resolver returns. -/
theorem loadDidDocument_trace (c : Collaborators) (url : String) (options : Val) :
    (loadDidDocument c url options).1
      = [Event.resolveDid (if c.didUrlIsValid url then c.didUrlDid url else url)] := by
  dsimp only [loadDidDocument]
  cases c.resolver (if c.didUrlIsValid url then c.didUrlDid url else url) <;> rfl

/-- Helper: the HTTP path always performs exactly one fetcher call with
the original reference and options. -/
theorem loadHttpDocument_trace (c : Collaborators) (url : String) (options : Val) :
    (loadHttpDocument c url options).1 = [Event.fetchHttp url options] := by
  dsimp only [loadHttpDocument]
  cases c.requestsLoader url options <;> rfl

/-- Helper: a successful dispatch performed exactly one resolver
collaborator invocation. -/
theorem dispatch_ok_singleton (c : Collaborators) (url : String) (options d : Val)
    (h : (resolveDispatch c url options).2 = Except.ok d) :
    ∃ ev1 : Event, (resolveDispatch c url options).1 = [ev1]
      ∧ isResolverCall ev1 = true := by
  cases h1 : pyStartsWith url ("did:") with
  | true =>
      exact ⟨Event.resolveDid (if c.didUrlIsValid url then c.didUrlDid url else url),
        by simp [resolveDispatch, h1, loadDidDocument_trace], rfl⟩
  | false =>
      cases h2 : (pyStartsWith url ("http://") || pyStartsWith url ("https://")) with
      | true =>
          exact ⟨Event.fetchHttp url options,
            by simp [resolveDispatch, h1, h2, loadHttpDocument_trace], rfl⟩
      | false =>
          exfalso
          rw [resolveDispatch] at h
          simp [h1, h2] at h

/-- C8: with a cache configured (modelled by the concrete TTL store),
two successive `load` calls on the same reference, the second within the
TTL of the first, invoke the underlying resolver collaborator exactly
once in total, and the second call returns the same result as the
first. -/
theorem cache_idempotence
    (c : Collaborators) (ttl : Nat) (s0 : Store) (t1 t2 : Nat)
    (url : String) (options d : Val)
    (hmiss : truthy (storeGet t1 (cacheKey url) s0) = false)
    (hok : (twoCalls c ttl s0 t1 t2 url options).1.2 = Except.ok d)
    (htruthy : truthy d = true)
    (httl : t2 ≤ t1 + ttl) :
    countResolverCalls ((twoCalls c ttl s0 t1 t2 url options).1.1
        ++ (twoCalls c ttl s0 t1 t2 url options).2.1) = 1
    ∧ (twoCalls c ttl s0 t1 t2 url options).2.2
        = (twoCalls c ttl s0 t1 t2 url options).1.2 := by
  rcases hr : resolveDispatch c url options with ⟨ev, res⟩
  have htc1 : (twoCalls c ttl s0 t1 t2 url options).1
      = loadAsync c (some (storeCB s0 t1)) ttl url options := rfl
  have h1 : loadAsync c (some (storeCB s0 t1)) ttl url options
      = (Event.cacheGet (cacheKey url)
           :: (cacheFill (some (storeCB s0 t1)) ttl (cacheKey url) (ev, res)).1,
         (cacheFill (some (storeCB s0 t1)) ttl (cacheKey url) (ev, res)).2) := by
    simp [loadAsync, storeCB, hmiss, hr]
  rw [htc1, h1] at hok
  cases res with
  | error e => simp [cacheFill] at hok
  | ok d0 =>
      have hd0 : d0 = d := by
        simpa [cacheFill, storeCB] using hok
      subst hd0
      have hcf : cacheFill (some (storeCB s0 t1)) ttl (cacheKey url) (ev, Except.ok d0)
          = (ev ++ [Event.cacheSet (cacheKey url) d0 ttl], Except.ok d0) := by
        simp [cacheFill, storeCB]
      obtain ⟨ev1, hev1, hres1⟩ := dispatch_ok_singleton c url options d0 (by rw [hr])
      rw [hr] at hev1
      simp only at hev1
      subst hev1
      have hs1 : applyEvents t1 s0 (loadAsync c (some (storeCB s0 t1)) ttl url options).1
          = storeSet t1 (cacheKey url) d0 ttl s0 := by
        rw [h1, hcf]
        cases ev1 <;> simp [isResolverCall] at hres1 <;> simp [applyEvents]
      have htc2 : (twoCalls c ttl s0 t1 t2 url options).2
      = loadAsync c
          (some (storeCB
            (applyEvents t1 s0 (loadAsync c (some (storeCB s0 t1)) ttl url options).1)
            t2))
          ttl url options := rfl
      have hget2 : (storeCB (storeSet t1 (cacheKey url) d0 ttl s0) t2).get (cacheKey url)
          = Except.ok d0 := by
        simp [storeCB, storeSet, storeGet, httl]
      have h2 : loadAsync c (some (storeCB (storeSet t1 (cacheKey url) d0 ttl s0) t2))
            ttl url options
          = ([Event.cacheGet (cacheKey url)], Except.ok d0) := by
        simp [loadAsync, hget2, htruthy]
      constructor
      · rw [htc1, htc2, hs1, h2, h1, hcf]
        simp [countResolverCalls, List.countP_append, List.countP_cons, isResolverCall,
          hres1]
        exact hres1
      · rw [htc1, htc2, hs1, h2, h1, hcf]

/-- C8 witness: two calls on the same HTTPS reference 100 seconds apart
with TTL 300 hit the cache the second time. -/
theorem cache_idempotence_witness :
    countResolverCalls
        ((twoCalls exC 300 [] 0 100 ("https://example.com/ctx.jsonld") (Val.vdict [])).1.1
          ++ (twoCalls exC 300 [] 0 100 ("https://example.com/ctx.jsonld") (Val.vdict [])).2.1) = 1
    ∧ (twoCalls exC 300 [] 0 100 ("https://example.com/ctx.jsonld") (Val.vdict [])).2.2
        = (twoCalls exC 300 [] 0 100 ("https://example.com/ctx.jsonld") (Val.vdict [])).1.2 :=
  cache_idempotence exC 300 [] 0 100 ("https://example.com/ctx.jsonld") (Val.vdict [])
    (Val.vdict
      [(("documentUrl"), Val.vstr ("https://example.com/ctx.jsonld")),
       (("options"), Val.vdict [])])
    rfl rfl rfl (by decide)
